import Mathlib

/-!
# Verification of the requeuest request-queue core

Shallow embedding of the `requeuest` crate (files `src/request.rs`,
`src/job.rs`, `src/client.rs`, `src/error.rs`) and proofs about it.

Bytes are modelled as `Nat` (values below 256 where the encoding produces
them), byte strings as `List Nat`, UUIDs as `Nat`, and the serialized
payload format mirrors bincode 1.x's fixed-int encoding: `u64`
little-endian length prefixes, `u32` little-endian enum variant tags,
`u8` option tags, and `u16` little-endian integer fields.
-/

namespace Requeuest

/-! ## Acceptance policy (`src/request.rs`, `AcceptedResponse`) -/

/-- The kinds of categories of response codes which a response can accept.
Mirrors `enum AcceptedResponse` in `src/request.rs`. -/
inductive AcceptedResponse where
  | informational
  | success
  | redirection
  | clientError
  | serverError
  | single (code : Nat)
  | range (lo hi : Nat)
deriving DecidableEq, Repr

/-- `AcceptedResponse::accepts` from `src/request.rs`.  The category arms
delegate to `StatusCode::is_informational` (100..200), `is_success`
(200..300), `is_redirection` (300..400), `is_client_error` (400..500)
and `is_server_error` (500..600) of the `http` crate; `Single` compares
for equality and `Range` is an inclusive bounds check. -/
def AcceptedResponse.accepts : AcceptedResponse → Nat → Bool
  | .informational, s => 100 ≤ s && s < 200
  | .success, s => 200 ≤ s && s < 300
  | .redirection, s => 300 ≤ s && s < 400
  | .clientError, s => 400 ≤ s && s < 500
  | .serverError, s => 500 ≤ s && s < 600
  | .single code, s => s == code
  | .range lo hi, s => lo ≤ s && s ≤ hi

/-- `default_accepted_responses` from `src/request.rs`: the singleton
set containing `Success`. -/
def default_accepted_responses : List AcceptedResponse :=
  [AcceptedResponse.success]

/-! ## Request model (`src/request.rs`, `struct Request`)

Field order matches the Rust struct declaration order (which is the
order bincode serializes the fields in): `url`, `body`, `method`,
`headers`, `accept_responses`.  Header maps are modelled as ordered
lists of (name bytes, value bytes) pairs; the `HashSet` of accepted
responses is modelled as the list of elements in iteration order. -/

/-- An HTTP request to be sent through the job queue
(`struct Request` in `src/request.rs`). -/
structure Request where
  url : List Nat
  body : Option (List Nat)
  method : List Nat
  headers : List (List Nat × List Nat)
  accept_responses : List AcceptedResponse
deriving DecidableEq, Repr

/-- The typed-builder construction surface of `Request`: `url` and
`method` are mandatory; `body` and `headers` default to empty; when
`accept_responses` is not set it defaults to
`default_accepted_responses()` (the `#[builder(default=...)]`
attribute on the field); when it is set, the given set is stored
verbatim, with no rejection or coercion. -/
def Request.build (url method : List Nat) (body : Option (List Nat))
    (headers : List (List Nat × List Nat))
    (accept : Option (List AcceptedResponse)) : Request :=
  ⟨url, body, method, headers, accept.getD default_accepted_responses⟩

/-! ## Serialization primitives (bincode 1.x fixed-int format) -/

/-- `w`-byte little-endian encoding of `n`. -/
def enc : Nat → Nat → List Nat
  | 0, _ => []
  | w + 1, n => n % 256 :: enc w (n / 256)

/-- Decode a `w`-byte little-endian integer, returning it with the
remaining input. -/
def dec : Nat → List Nat → Option (Nat × List Nat)
  | 0, l => some (0, l)
  | _ + 1, [] => none
  | w + 1, b :: rest =>
    (dec w rest).map fun p => (b + 256 * p.1, p.2)

/-- A byte string: `u64` length prefix followed by the raw bytes. -/
def encBytes (bs : List Nat) : List Nat :=
  enc 8 bs.length ++ bs

/-- Decode a length-prefixed byte string. -/
def decBytes (l : List Nat) : Option (List Nat × List Nat) :=
  (dec 8 l).bind fun p =>
    if p.1 ≤ p.2.length then some (p.2.take p.1, p.2.drop p.1) else none

/-- `Option` encoding: `u8` tag 0 for `None`, tag 1 followed by the
payload for `Some`. -/
def encOpt (f : α → List Nat) : Option α → List Nat
  | none => [0]
  | some a => 1 :: f a

/-- Decode an `Option`. -/
def decOpt (f : List Nat → Option (α × List Nat)) :
    List Nat → Option (Option α × List Nat)
  | [] => none
  | b :: rest =>
    if b = 0 then some (none, rest)
    else if b = 1 then (f rest).map fun p => (some p.1, p.2)
    else none

/-- Sequence encoding: `u64` element count followed by the encodings of
the elements in order. -/
def encList (f : α → List Nat) (xs : List α) : List Nat :=
  enc 8 xs.length ++ (xs.map f).flatten

/-- Decode exactly `n` elements. -/
def decListAux (f : List Nat → Option (α × List Nat)) :
    Nat → List Nat → Option (List α × List Nat)
  | 0, l => some ([], l)
  | n + 1, l =>
    (f l).bind fun p =>
      (decListAux f n p.2).map fun q => (p.1 :: q.1, q.2)

/-- Decode a count-prefixed sequence. -/
def decList (f : List Nat → Option (α × List Nat)) (l : List Nat) :
    Option (List α × List Nat) :=
  (dec 8 l).bind fun p => decListAux f p.1 p.2

/-- Encoding of one `AcceptedResponse`: `u32` variant tag, then the
`u16` payload fields of `Single` / `Range`. -/
def encAR : AcceptedResponse → List Nat
  | .informational => enc 4 0
  | .success => enc 4 1
  | .redirection => enc 4 2
  | .clientError => enc 4 3
  | .serverError => enc 4 4
  | .single code => enc 4 5 ++ enc 2 code
  | .range lo hi => enc 4 6 ++ enc 2 lo ++ enc 2 hi

/-- Decode one `AcceptedResponse`. -/
def decAR (l : List Nat) : Option (AcceptedResponse × List Nat) :=
  (dec 4 l).bind fun p =>
    match p.1 with
    | 0 => some (.informational, p.2)
    | 1 => some (.success, p.2)
    | 2 => some (.redirection, p.2)
    | 3 => some (.clientError, p.2)
    | 4 => some (.serverError, p.2)
    | 5 => (dec 2 p.2).map fun q => (.single q.1, q.2)
    | 6 =>
      (dec 2 p.2).bind fun q =>
        (dec 2 q.2).map fun r => (.range q.1 r.1, r.2)
    | _ => none

/-- Encoding of one header pair: length-prefixed name, then
length-prefixed value. -/
def encHeader (h : List Nat × List Nat) : List Nat :=
  encBytes h.1 ++ encBytes h.2

/-- Decode one header pair. -/
def decHeader (l : List Nat) : Option ((List Nat × List Nat) × List Nat) :=
  (decBytes l).bind fun p =>
    (decBytes p.2).map fun q => ((p.1, q.1), q.2)

/-- `bincode::serialize` of a `Request`: the fields in struct
declaration order. -/
def serializeRequest (r : Request) : List Nat :=
  encBytes r.url ++ encOpt encBytes r.body ++ encBytes r.method
    ++ encList encHeader r.headers ++ encList encAR r.accept_responses

/-- Decode a `Request`, returning the remaining input. -/
def decRequest (l : List Nat) : Option (Request × List Nat) :=
  (decBytes l).bind fun u =>
    (decOpt decBytes u.2).bind fun b =>
      (decBytes b.2).bind fun m =>
        (decList decHeader m.2).bind fun h =>
          (decList decAR h.2).map fun a =>
            (⟨u.1, b.1, m.1, h.1, a.1⟩, a.2)

/-- `bincode::deserialize::<Request>` of a payload. -/
def deserializeRequest (l : List Nat) : Option Request :=
  (decRequest l).map fun p => p.1

/-- Validity of an `AcceptedResponse` value: the numeric payloads fit
in `u16`, as the Rust field types force. -/
def AcceptedResponse.valid : AcceptedResponse → Prop
  | .single code => code < 65536
  | .range lo hi => lo < 65536 ∧ hi < 65536
  | _ => True

instance : DecidablePred AcceptedResponse.valid := by
  intro a
  cases a <;> simp [AcceptedResponse.valid] <;> infer_instance

/-- Validity of a `Request` value: every length is below `2^64` (as the
Rust `usize` type forces) and every policy element is valid. -/
def Request.valid (r : Request) : Prop :=
  r.url.length < 2 ^ 64
    ∧ (∀ b ∈ r.body, b.length < 2 ^ 64)
    ∧ r.method.length < 2 ^ 64
    ∧ r.headers.length < 2 ^ 64
    ∧ (∀ h ∈ r.headers, h.1.length < 2 ^ 64 ∧ h.2.length < 2 ^ 64)
    ∧ r.accept_responses.length < 2 ^ 64
    ∧ ∀ a ∈ r.accept_responses, a.valid

/-! ## Errors (`src/error.rs`, `enum JobError`), extended with the two
error sources the executors propagate through `?` besides `JobError`:
the bincode deserialization failure and the transport failure of
`builder.send()`. -/

/-- Errors an executor attempt can fail with. `missingRequest`,
`missingSender` and `missingReceiver` are the variants of
`enum JobError` in `src/error.rs`; `deserializeError` models a
propagated `bincode::Error`; `transportError` models a propagated
`reqwest::Error` from `send()`. -/
inductive JobError where
  | missingRequest
  | missingSender
  | missingReceiver
  | deserializeError
  | transportError
deriving DecidableEq, Repr

/-! ## The outgoing HTTP call and the execution trace -/

/-- The outgoing HTTP call an executor hands to the transport: exactly
the data placed on the `reqwest` request builder before `send()`. -/
structure HttpCall where
  method : List Nat
  url : List Nat
  headers : List (List Nat × List Nat)
  body : Option (List Nat)
deriving DecidableEq, Repr

/-- Observable effects of one executor attempt, in program order. -/
inductive Event where
  | dispatch (call : HttpCall)
  | complete
  | resolve (id : Nat)
deriving DecidableEq, Repr

/-- Whether an event is the completion of the job. -/
def Event.isComplete : Event → Bool
  | .complete => true
  | _ => false

/-- Whether an event is the delivery of a response to a waiter. -/
def Event.isResolve : Event → Bool
  | .resolve _ => true
  | _ => false

/-! ## Correlation table (`ResponseSender` in `src/job.rs`)

The sender map is a finite partial map from job UUID to the oneshot
sender registered for it; the only datum of a sender that matters to
the embedded semantics is whether its receiving half is still alive
(`oneshot::Sender::send` fails exactly when the receiver was dropped),
so a sender is modelled as that `Bool`. -/

/-- The map guarded by the `ResponseSender` mutex: job id to the
registered oneshot sender (`true` iff its receiver is still alive). -/
def SenderMap : Type := Nat → Option Bool

/-- `HashMap::remove` on the sender map. -/
def removeSender (m : SenderMap) (id : Nat) : SenderMap :=
  fun k => if k = id then none else m k

/-- The resolution step of `http_response` (`src/job.rs` lines 87-88):
remove the sender for the job id, failing with `MissingSender` when
absent, then send the response through it, failing with
`MissingReceiver` when the receiver was dropped.  Returns the updated
map and the error, if any. -/
def resolve (m : SenderMap) (id : Nat) : SenderMap × Option JobError :=
  match m id with
  | none => (m, some .missingSender)
  | some alive =>
    (removeSender m id, if alive then none else some .missingReceiver)

/-! ## Job executors (`src/job.rs`)

An executor attempt is a function of the job's raw payload
(`job.raw_bytes()`, `none` when absent) and of the transport, modelled
as a function from the outgoing call to `some status` on a completed
HTTP exchange or `none` on a transport failure.  It returns the list
of effects it performed, in order, and the error it returned, if any. -/

/-- The call built by `http` (`src/job.rs` line 50-53): method and url
from the request, then `.headers(request.headers)`, then the body when
present. -/
def buildCall_http (r : Request) : HttpCall :=
  ⟨r.method, r.url, r.headers, r.body⟩

/-- The call built by `http_response` (`src/job.rs` line 76-79): method
and url from the request, then the body when present.  No
`.headers(...)` call is made, so the request's headers are not placed
on the outgoing call. -/
def buildCall_http_response (r : Request) : HttpCall :=
  ⟨r.method, r.url, [], r.body⟩

/-- Whether the response status is in the accepted set
(`request.accept_responses.iter().any(|a| a.accepts(status))`). -/
def isAccepted (r : Request) (status : Nat) : Bool :=
  r.accept_responses.any fun a => a.accepts status

/-- The fire-and-forget executor `http` (`src/job.rs` lines 44-62). -/
def http (payload : Option (List Nat)) (transport : HttpCall → Option Nat) :
    List Event × Option JobError :=
  match payload with
  | none => ([], some .missingRequest)
  | some bytes =>
    match deserializeRequest bytes with
    | none => ([], some .deserializeError)
    | some r =>
      let call := buildCall_http r
      match transport call with
      | none => ([.dispatch call], some .transportError)
      | some status =>
        if isAccepted r status then ([.dispatch call, .complete], none)
        else ([.dispatch call], none)

/-- The response-returning executor `http_response` (`src/job.rs` lines
66-92).  On an accepted response it completes the job first, then
removes and uses the sender for the job's id. -/
def http_response (jobId : Nat) (payload : Option (List Nat))
    (transport : HttpCall → Option Nat) (m : SenderMap) :
    List Event × SenderMap × Option JobError :=
  match payload with
  | none => ([], m, some .missingRequest)
  | some bytes =>
    match deserializeRequest bytes with
    | none => ([], m, some .deserializeError)
    | some r =>
      let call := buildCall_http_response r
      match transport call with
      | none => ([.dispatch call], m, some .transportError)
      | some status =>
        if isAccepted r status then
          match m jobId with
          | none => ([.dispatch call, .complete], m, some .missingSender)
          | some alive =>
            if alive then
              ([.dispatch call, .complete, .resolve jobId],
                removeSender m jobId, none)
            else
              ([.dispatch call, .complete], removeSender m jobId,
                some .missingReceiver)
        else ([.dispatch call], m, none)

/-! ## Enqueue-retry wrapper (`retrying_spawn` in `src/client.rs`) -/

/-- Outcome of one `job.spawn(pool)` attempt: success with the new job
id, an error for which `sqlxmq::should_retry` holds (a transient
retryable conflict), or any other error (carried as a code). -/
inductive SpawnOutcome where
  | ok (id : Nat)
  | retryErr
  | fatalErr (e : Nat)
deriving DecidableEq, Repr

/-- `retrying_spawn` (`src/client.rs` lines 226-237), run against the
given finite prefix of spawn-attempt outcomes: loop over the attempts,
continuing past every retryable error; return `Ok` at the first
success and `Err` at the first non-retryable error; `none` means the
loop consumed the whole prefix and is still retrying. -/
def retrying_spawn : List SpawnOutcome → Option (Except Nat Nat)
  | [] => none
  | .ok id :: _ => some (.ok id)
  | .retryErr :: rest => retrying_spawn rest
  | .fatalErr e :: _ => some (.error e)

/-! ## Job builder configuration (`src/client.rs`)

`sqlxmq::JobBuilder` is modelled by the fields the client code sets;
each `set_*` method overwrites its field. -/

/-- The configurable state of a `sqlxmq::JobBuilder`. -/
structure JobBuilder where
  id : Nat
  retries : Nat
  ordered : Bool
  channel : List Nat
  payload : Option (List Nat)
deriving DecidableEq, Repr

/-- `JobBuilder::set_retries`. -/
def JobBuilder.set_retries (b : JobBuilder) (n : Nat) : JobBuilder :=
  { b with retries := n }

/-- `JobBuilder::set_ordered`. -/
def JobBuilder.set_ordered (b : JobBuilder) (o : Bool) : JobBuilder :=
  { b with ordered := o }

/-- `JobBuilder::set_channel_name`. -/
def JobBuilder.set_channel_name (b : JobBuilder) (c : List Nat) : JobBuilder :=
  { b with channel := c }

/-- `JobBuilder::set_raw_bytes`. -/
def JobBuilder.set_raw_bytes (b : JobBuilder) (p : List Nat) : JobBuilder :=
  { b with payload := p }

/-- `default_job_proto` (`src/client.rs` lines 14-16):
`builder.set_retries(100_000).set_ordered(true)`. -/
def default_job_proto (b : JobBuilder) : JobBuilder :=
  (b.set_retries 100000).set_ordered true

/-- The builder `spawn_returning_cfg` (`src/client.rs` lines 210-217)
hands to `retrying_spawn`: start from `builder_with_id(uuid)`, apply
`set_proto(default_job_proto)`, run the caller's configuration
callback, then `set_raw_bytes`, `set_channel_name` and finally
`set_ordered(false)`. -/
def spawn_returning_cfg_builder (start : JobBuilder)
    (cfg : JobBuilder → JobBuilder) (payload channel : List Nat) :
    JobBuilder :=
  ((((default_job_proto start) |> cfg).set_raw_bytes payload
    ).set_channel_name channel).set_ordered false

/-! ## Concrete fixtures used by witnesses and counterexamples -/

/-- Decidability of request validity. -/
instance : DecidablePred Request.valid := fun r => by
  unfold Request.valid
  infer_instance

/-- A small concrete request: url bytes of "http", method bytes of
"GET", body byte "1", one header pair (name byte "a", value byte "b"),
and the default Success-only policy. -/
def r0 : Request :=
  ⟨[104, 116, 116, 112], some [49], [71, 69, 84], [([97], [98])],
    [AcceptedResponse.success]⟩

/-- A request built with an explicitly empty acceptance set. -/
def rEmpty : Request :=
  Request.build [104] [71] none [] (some [])

/-- A transport that answers every call with status 200. -/
def t200 : HttpCall → Option Nat := fun _ => some 200

/-- A transport that answers every call with status 503. -/
def t503 : HttpCall → Option Nat := fun _ => some 503

/-- A sender map with one registered waiter, id 7, receiver alive. -/
def m0 : SenderMap := fun k => if k = 7 then some true else none

/-! ## Round-trip lemmas for the payload encoding -/

theorem dec_enc (w n : Nat) (rest : List Nat) :
    dec w (enc w n ++ rest) = some (n % 256 ^ w, rest) := by
  induction w generalizing n with
  | zero => simp [enc, dec, Nat.mod_one]
  | succ w ih =>
    simp only [enc, dec, List.cons_append, List.append_eq, ih,
      Option.map_some']
    have hpow : (256 : Nat) ^ (w + 1) = 256 * 256 ^ w := by ring
    rw [hpow, Nat.mod_mul]

theorem dec_enc_of_lt (w n : Nat) (rest : List Nat) (h : n < 256 ^ w) :
    dec w (enc w n ++ rest) = some (n, rest) := by
  rw [dec_enc, Nat.mod_eq_of_lt h]

theorem decBytes_encBytes (bs rest : List Nat)
    (h : bs.length < 2 ^ 64) :
    decBytes (encBytes bs ++ rest) = some (bs, rest) := by
  have h' : bs.length < 256 ^ 8 := by norm_num at h ⊢; omega
  simp only [encBytes, decBytes, List.append_assoc,
    dec_enc_of_lt _ _ _ h', Option.bind_some]
  simp

theorem decOpt_encOpt (fenc : α → List Nat)
    (fdec : List Nat → Option (α × List Nat)) (x : Option α)
    (rest : List Nat)
    (h : ∀ a, x = some a → fdec (fenc a ++ rest) = some (a, rest)) :
    decOpt fdec (encOpt fenc x ++ rest) = some (x, rest) := by
  cases x with
  | none => simp [encOpt, decOpt]
  | some a => simp [encOpt, decOpt, h a rfl]

theorem decListAux_append (fenc : α → List Nat)
    (fdec : List Nat → Option (α × List Nat)) (xs : List α)
    (rest : List Nat)
    (h : ∀ a ∈ xs, ∀ r : List Nat, fdec (fenc a ++ r) = some (a, r)) :
    decListAux fdec xs.length ((xs.map fenc).flatten ++ rest)
      = some (xs, rest) := by
  induction xs with
  | nil => simp [decListAux]
  | cons a as ih =>
    have ha := h a (List.mem_cons_self a as)
    simp only [List.map_cons, List.flatten_cons, List.length_cons,
      List.append_assoc, decListAux, ha, Option.some_bind]
    rw [ih fun b hb r => h b (List.mem_cons_of_mem a hb) r]
    rfl

theorem decList_encList (fenc : α → List Nat)
    (fdec : List Nat → Option (α × List Nat)) (xs : List α)
    (rest : List Nat) (hlen : xs.length < 2 ^ 64)
    (h : ∀ a ∈ xs, ∀ r : List Nat, fdec (fenc a ++ r) = some (a, r)) :
    decList fdec (encList fenc xs ++ rest) = some (xs, rest) := by
  have h' : xs.length < 256 ^ 8 := by norm_num at hlen ⊢; omega
  simp only [encList, decList, List.append_assoc,
    dec_enc_of_lt _ _ _ h', Option.bind_some]
  exact decListAux_append fenc fdec xs rest h

theorem decAR_encAR (a : AcceptedResponse) (rest : List Nat)
    (h : a.valid) :
    decAR (encAR a ++ rest) = some (a, rest) := by
  have h4 : ∀ t : Nat, t < 7 → t < 256 ^ 4 := by intro t ht; omega
  cases a with
  | single code =>
    simp only [AcceptedResponse.valid] at h
    have hc : code < 256 ^ 2 := by omega
    simp [encAR, decAR, List.append_assoc,
      dec_enc_of_lt 4 5 _ (h4 5 (by omega)), dec_enc_of_lt 2 code _ hc]
  | range lo hi =>
    simp only [AcceptedResponse.valid] at h
    have hlo : lo < 256 ^ 2 := by omega
    have hhi : hi < 256 ^ 2 := by omega
    simp [encAR, decAR, List.append_assoc,
      dec_enc_of_lt 4 6 _ (h4 6 (by omega)), dec_enc_of_lt 2 lo _ hlo,
      dec_enc_of_lt 2 hi _ hhi]
  | informational =>
    simp [encAR, decAR, dec_enc_of_lt 4 0 _ (h4 0 (by omega))]
  | success =>
    simp [encAR, decAR, dec_enc_of_lt 4 1 _ (h4 1 (by omega))]
  | redirection =>
    simp [encAR, decAR, dec_enc_of_lt 4 2 _ (h4 2 (by omega))]
  | clientError =>
    simp [encAR, decAR, dec_enc_of_lt 4 3 _ (h4 3 (by omega))]
  | serverError =>
    simp [encAR, decAR, dec_enc_of_lt 4 4 _ (h4 4 (by omega))]

theorem decHeader_encHeader (p : List Nat × List Nat) (rest : List Nat)
    (h1 : p.1.length < 2 ^ 64) (h2 : p.2.length < 2 ^ 64) :
    decHeader (encHeader p ++ rest) = some (p, rest) := by
  simp only [encHeader, decHeader, List.append_assoc,
    decBytes_encBytes _ _ h1, Option.some_bind,
    decBytes_encBytes _ _ h2, Option.map_some']

theorem decRequest_serializeRequest (r : Request) (rest : List Nat)
    (h : r.valid) :
    decRequest (serializeRequest r ++ rest) = some (r, rest) := by
  obtain ⟨hu, hb, hm, hhl, hh, hal, ha⟩ := h
  have hbody : decOpt decBytes
      (encOpt encBytes r.body ++ (encBytes r.method
        ++ (encList encHeader r.headers
          ++ (encList encAR r.accept_responses ++ rest))))
      = some (r.body, encBytes r.method
        ++ (encList encHeader r.headers
          ++ (encList encAR r.accept_responses ++ rest))) := by
    apply decOpt_encOpt
    intro a hx
    exact decBytes_encBytes a _ (hb a hx)
  have hhead : decList decHeader
      (encList encHeader r.headers
        ++ (encList encAR r.accept_responses ++ rest))
      = some (r.headers, encList encAR r.accept_responses ++ rest) := by
    apply decList_encList _ _ _ _ hhl
    intro p hp q
    exact decHeader_encHeader p q (hh p hp).1 (hh p hp).2
  have har : decList decAR (encList encAR r.accept_responses ++ rest)
      = some (r.accept_responses, rest) := by
    apply decList_encList _ _ _ _ hal
    intro a hx q
    exact decAR_encAR a q (ha a hx)
  simp only [serializeRequest, decRequest, List.append_assoc,
    decBytes_encBytes _ _ hu, Option.some_bind, hbody,
    decBytes_encBytes _ _ hm, hhead, har, Option.map_some']

/-- Resolving an id that is absent from the sender map leaves the map
unchanged and fails with `MissingSender`. -/
theorem resolve_absent (m : SenderMap) (id : Nat) (h : m id = none) :
    resolve m id = (m, some JobError.missingSender) := by
  simp [resolve, h]

/-! ## Claim theorems -/

/-- C6: for every status code in 100-599 and every acceptance-policy
variant, `accepts` matches the documented numeric range exactly:
Informational iff 100-199, Success iff 200-299, Redirection iff
300-399, ClientError iff 400-499, ServerError iff 500-599,
`Range(a,b)` iff `a ≤ code ≤ b` inclusive, and `Single(n)` iff
`code = n`. -/
theorem C6_accepts_ranges (c : Nat) (h1 : 100 ≤ c) (h2 : c ≤ 599) :
    (AcceptedResponse.informational.accepts c = true ↔ 100 ≤ c ∧ c ≤ 199)
    ∧ (AcceptedResponse.success.accepts c = true ↔ 200 ≤ c ∧ c ≤ 299)
    ∧ (AcceptedResponse.redirection.accepts c = true ↔ 300 ≤ c ∧ c ≤ 399)
    ∧ (AcceptedResponse.clientError.accepts c = true ↔ 400 ≤ c ∧ c ≤ 499)
    ∧ (AcceptedResponse.serverError.accepts c = true ↔ 500 ≤ c ∧ c ≤ 599)
    ∧ (∀ a b : Nat,
        (AcceptedResponse.range a b).accepts c = true ↔ a ≤ c ∧ c ≤ b)
    ∧ (∀ n : Nat,
        (AcceptedResponse.single n).accepts c = true ↔ c = n) := by
  refine ⟨?_, ?_, ?_, ?_, ?_, ?_, ?_⟩ <;>
    simp [AcceptedResponse.accepts] <;> omega

/-- Witness for C6 at the concrete status code 250. -/
theorem C6_accepts_ranges_witness :
    100 ≤ 250 ∧ 250 ≤ 599
    ∧ (AcceptedResponse.success.accepts 250 = true
        ↔ 200 ≤ 250 ∧ 250 ≤ 299) :=
  ⟨by decide, by decide, (C6_accepts_ranges 250 (by decide) (by decide)).2.1⟩

/-- C9: deserializing the serialization of any valid request yields the
request back unchanged: url, method, headers (order and duplicates
preserved), body, and acceptance policy all survive the round trip. -/
theorem C9_round_trip (r : Request) (h : r.valid) :
    deserializeRequest (serializeRequest r) = some r := by
  have hd := decRequest_serializeRequest r [] h
  rw [List.append_nil] at hd
  simp [deserializeRequest, hd]

/-- Witness for C9 at the concrete request `r0`. -/
theorem C9_round_trip_witness :
    r0.valid ∧ deserializeRequest (serializeRequest r0) = some r0 :=
  ⟨by decide, C9_round_trip r0 (by decide)⟩

/-- C3: in every execution of the fire-and-forget executor that
reaches the evaluate step (the payload deserialized to a request and
the transport returned a status), the job is completed iff some
variant of the request's acceptance set accepts the status; on a
non-accepted status the executor returns without completing and
without an error. -/
theorem C3_complete_iff_accepted (payload : List Nat) (r : Request)
    (status : Nat) (transport : HttpCall → Option Nat)
    (hdes : deserializeRequest payload = some r)
    (htr : transport (buildCall_http r) = some status) :
    (Event.complete ∈ (http (some payload) transport).1
        ↔ isAccepted r status = true)
    ∧ (isAccepted r status = false →
        http (some payload) transport
          = ([Event.dispatch (buildCall_http r)], none)) := by
  simp only [http, hdes, htr]
  cases hacc : isAccepted r status <;> simp [hacc]

/-- Witness for C3 at the concrete request `r0` against a transport
answering 503, which the Success-only policy does not accept. -/
theorem C3_complete_iff_accepted_witness :
    deserializeRequest (serializeRequest r0) = some r0
    ∧ t503 (buildCall_http r0) = some 503
    ∧ ((Event.complete ∈ (http (some (serializeRequest r0)) t503).1
          ↔ isAccepted r0 503 = true)
        ∧ (isAccepted r0 503 = false →
            http (some (serializeRequest r0)) t503
              = ([Event.dispatch (buildCall_http r0)], none))) :=
  ⟨by decide, rfl,
    C3_complete_iff_accepted (serializeRequest r0) r0 503 t503
      (by decide) rfl⟩

/-- C1 (refuted): the two executors do not build the same HTTP call
from the same request. On the same payload, `http` places the
request's headers on the outgoing call while `http_response` places
none of them, so the dispatched calls differ whenever the request
carries a header. -/
theorem C1_headers_dropped :
    (http (some (serializeRequest r0)) t200).1
        = [Event.dispatch (buildCall_http r0), Event.complete]
    ∧ (http_response 7 (some (serializeRequest r0)) t200 m0).1
        = [Event.dispatch (buildCall_http_response r0), Event.complete,
            Event.resolve 7]
    ∧ (buildCall_http r0).headers = [([97], [98])]
    ∧ (buildCall_http_response r0).headers = []
    ∧ buildCall_http r0 ≠ buildCall_http_response r0 := by decide

/-- C2 (counterexample): in a concrete accepted execution of the
response-returning executor, the job-completion event strictly
precedes the waiter-resolution event, so the waiter is not resolved
before the job is marked complete. -/
theorem C2_counterexample :
    (http_response 7 (some (serializeRequest r0)) t200 m0).1
        = [Event.dispatch (buildCall_http_response r0), Event.complete,
            Event.resolve 7]
    ∧ (http_response 7 (some (serializeRequest r0)) t200 m0).1.findIdx
          Event.isComplete
        < (http_response 7 (some (serializeRequest r0)) t200 m0).1.findIdx
          Event.isResolve := by decide

/-- C2 (amended): in the response-returning executor, every execution
whose response is accepted marks the job complete first; a resolution
of the waiter, when it happens, comes strictly after the completion,
and when a waiter with a live receiver is registered for the job id
the response is delivered right after completion and the sender is
removed from the map. -/
theorem C2_amended_complete_then_resolve (jobId : Nat)
    (payload : List Nat) (r : Request) (status : Nat)
    (transport : HttpCall → Option Nat) (m : SenderMap)
    (hdes : deserializeRequest payload = some r)
    (htr : transport (buildCall_http_response r) = some status)
    (hacc : isAccepted r status = true) :
    ((http_response jobId (some payload) transport m).1
        = [Event.dispatch (buildCall_http_response r), Event.complete]
      ∨ (http_response jobId (some payload) transport m).1
        = [Event.dispatch (buildCall_http_response r), Event.complete,
            Event.resolve jobId])
    ∧ (m jobId = some true →
        (http_response jobId (some payload) transport m).1
          = [Event.dispatch (buildCall_http_response r), Event.complete,
              Event.resolve jobId]
        ∧ (http_response jobId (some payload) transport m).2.1
            = removeSender m jobId
        ∧ (http_response jobId (some payload) transport m).2.2 = none) := by
  simp only [http_response, hdes, htr, hacc]
  cases hm : m jobId with
  | none => simp [hm]
  | some alive => cases alive <;> simp [hm]

/-- Witness for the amended C2 at the concrete request `r0`, transport
`t200` and sender map `m0` with registered id 7. -/
theorem C2_amended_witness :
    deserializeRequest (serializeRequest r0) = some r0
    ∧ t200 (buildCall_http_response r0) = some 200
    ∧ isAccepted r0 200 = true
    ∧ (((http_response 7 (some (serializeRequest r0)) t200 m0).1
          = [Event.dispatch (buildCall_http_response r0), Event.complete]
        ∨ (http_response 7 (some (serializeRequest r0)) t200 m0).1
          = [Event.dispatch (buildCall_http_response r0), Event.complete,
              Event.resolve 7])
      ∧ (m0 7 = some true →
          (http_response 7 (some (serializeRequest r0)) t200 m0).1
            = [Event.dispatch (buildCall_http_response r0), Event.complete,
                Event.resolve 7]
          ∧ (http_response 7 (some (serializeRequest r0)) t200 m0).2.1
              = removeSender m0 7
          ∧ (http_response 7 (some (serializeRequest r0)) t200 m0).2.2
              = none)) :=
  ⟨by decide, rfl, by decide,
    C2_amended_complete_then_resolve 7 (serializeRequest r0) r0 200 t200 m0
      (by decide) rfl (by decide)⟩

/-- C5: for every job id with a registered waiter, resolution delivers
at most once: the first resolution removes the sender from the
correlation map, and a subsequent resolution attempt for the same id
leaves the map unchanged and fails with `MissingSender`. -/
theorem C5_at_most_once (m : SenderMap) (id : Nat)
    (h : (m id).isSome = true) :
    (resolve m id).1 id = none
    ∧ resolve (resolve m id).1 id
        = ((resolve m id).1, some JobError.missingSender) := by
  cases hm : m id with
  | none => rw [hm] at h; simp at h
  | some alive =>
    have h1 : (resolve m id).1 id = none := by
      simp [resolve, hm, removeSender]
    exact ⟨h1, resolve_absent _ _ h1⟩

/-- Witness for C5 at the concrete sender map `m0` and id 7. -/
theorem C5_at_most_once_witness :
    (m0 7).isSome = true
    ∧ ((resolve m0 7).1 7 = none
      ∧ resolve (resolve m0 7).1 7
          = ((resolve m0 7).1, some JobError.missingSender)) :=
  ⟨rfl, C5_at_most_once m0 7 rfl⟩

/-- C4: the insert-retry wrapper retries the durable insert
immediately and without bound on every transient retryable conflict,
propagates any other insert error, and absorbs K leading conflicts
followed by a success into a single successful enqueue with no
visible error. -/
theorem C4_retry_absorption :
    (∀ rest : List SpawnOutcome,
        retrying_spawn (SpawnOutcome.retryErr :: rest)
          = retrying_spawn rest)
    ∧ (∀ K : Nat,
        retrying_spawn (List.replicate K SpawnOutcome.retryErr) = none)
    ∧ (∀ (K id : Nat) (rest : List SpawnOutcome),
        retrying_spawn (List.replicate K SpawnOutcome.retryErr
            ++ SpawnOutcome.ok id :: rest) = some (Except.ok id))
    ∧ (∀ (K e : Nat) (rest : List SpawnOutcome),
        retrying_spawn (List.replicate K SpawnOutcome.retryErr
            ++ SpawnOutcome.fatalErr e :: rest)
          = some (Except.error e)) := by
  have step : ∀ rest : List SpawnOutcome,
      retrying_spawn (SpawnOutcome.retryErr :: rest)
        = retrying_spawn rest := fun rest => rfl
  refine ⟨step, ?_, ?_, ?_⟩
  · intro K
    induction K with
    | zero => rfl
    | succ K ih => rw [List.replicate_succ, step, ih]
  · intro K id rest
    induction K with
    | zero => rfl
    | succ K ih => rw [List.replicate_succ, List.cons_append, step, ih]
  · intro K e rest
    induction K with
    | zero => rfl
    | succ K ih => rw [List.replicate_succ, List.cons_append, step, ih]

/-- C7 (counterexample): a present but malformed payload makes the
attempt fail with the propagated deserialization error, which is a
different error from `MissingRequest`, in both executors. -/
theorem C7_counterexample :
    http (some [2, 0, 0]) t200 = ([], some JobError.deserializeError)
    ∧ (http_response 7 (some [2, 0, 0]) t200 m0).1 = []
    ∧ (http_response 7 (some [2, 0, 0]) t200 m0).2.2
        = some JobError.deserializeError
    ∧ JobError.deserializeError ≠ JobError.missingRequest := by decide

/-- C7 (amended): in both executors, an absent payload fails the
attempt with `MissingRequest`, and a present but malformed payload
fails it with the propagated deserialization error; in both cases no
dispatch happens. -/
theorem C7_amended_payload_errors (transport : HttpCall → Option Nat)
    (jobId : Nat) (m : SenderMap) (bs : List Nat)
    (hbad : deserializeRequest bs = none) :
    http none transport = ([], some JobError.missingRequest)
    ∧ (http_response jobId none transport m).1 = []
    ∧ (http_response jobId none transport m).2.2
        = some JobError.missingRequest
    ∧ http (some bs) transport = ([], some JobError.deserializeError)
    ∧ (http_response jobId (some bs) transport m).1 = []
    ∧ (http_response jobId (some bs) transport m).2.2
        = some JobError.deserializeError := by
  refine ⟨rfl, rfl, rfl, ?_, ?_, ?_⟩ <;> simp [http, http_response, hbad]

/-- Witness for the amended C7 at the malformed payload `[2, 0, 0]`. -/
theorem C7_amended_witness :
    deserializeRequest [2, 0, 0] = none
    ∧ (http none t200 = ([], some JobError.missingRequest)
      ∧ (http_response 7 none t200 m0).1 = []
      ∧ (http_response 7 none t200 m0).2.2 = some JobError.missingRequest
      ∧ http (some [2, 0, 0]) t200 = ([], some JobError.deserializeError)
      ∧ (http_response 7 (some [2, 0, 0]) t200 m0).1 = []
      ∧ (http_response 7 (some [2, 0, 0]) t200 m0).2.2
          = some JobError.deserializeError) :=
  ⟨by decide, C7_amended_payload_errors t200 7 m0 [2, 0, 0] (by decide)⟩

/-- C8 (counterexample): a request constructed with an explicitly
empty acceptance set is neither rejected nor coerced to the default:
the built request stores the empty set, accepts no status (not even
200), and executing it dispatches the call but never completes the
job and reports no error. -/
theorem C8_counterexample :
    rEmpty.accept_responses = []
    ∧ rEmpty.accept_responses ≠ default_accepted_responses
    ∧ isAccepted rEmpty 200 = false
    ∧ (http (some (serializeRequest rEmpty)) t200).1
        = [Event.dispatch (buildCall_http rEmpty)]
    ∧ (http (some (serializeRequest rEmpty)) t200).2 = none := by decide

/-- C8 (amended): when the acceptance set is omitted at construction
it is coerced to the default Success-only policy, but an explicitly
empty set is stored verbatim, producing a request whose policy accepts
no status code at all. -/
theorem C8_amended_empty_policy (url method : List Nat)
    (body : Option (List Nat)) (headers : List (List Nat × List Nat)) :
    (Request.build url method body headers none).accept_responses
        = default_accepted_responses
    ∧ (Request.build url method body headers (some [])).accept_responses
        = []
    ∧ ∀ c : Nat,
        isAccepted (Request.build url method body headers (some [])) c
          = false :=
  ⟨rfl, rfl, fun _ => rfl⟩

/-- C10: the builder handed to the insert by `spawn_returning_cfg` has
its ordered flag false for every configuration callback: the final
`set_ordered(false)` runs after the default prototype (retries 100000,
ordered true) and after the callback, overriding both. -/
theorem C10_ordered_false (start : JobBuilder)
    (cfg : JobBuilder → JobBuilder) (payload channel : List Nat) :
    (spawn_returning_cfg_builder start cfg payload channel).ordered = false
    ∧ (default_job_proto start).ordered = true
    ∧ (default_job_proto start).retries = 100000 :=
  ⟨rfl, rfl, rfl⟩

end Requeuest
